import Mathlib

/-!
# Verification of the wh-bot1 hotel ordering assistant

Shallow embedding of the message-parsing, conversation-handling and
order-placement logic of the repository (src/Combined.js, src/script.js,
src/unnamed/part_001), together with proofs about the claims of the spec.

JavaScript string and regex operations are modelled on `List Char`
with explicit, executable definitions mirroring the semantics used by
the source (case-insensitive matching is irrelevant because the source
lowercases the text first; regexes are scanned left to right with the
alternation order of the source patterns).
-/

namespace WhBot

/-! ## JavaScript-style string primitives -/

/-- JS `\w` word character: ASCII letter, digit or underscore. -/
def isWordChar (c : Char) : Bool := c.isAlphanum || c = '_'

/-- JS `\s` whitespace (the characters relevant here). -/
def isJsSpace (c : Char) : Bool := c = ' ' || c = '\t' || c = '\n' || c = '\r'

/-- ASCII lowercasing of one character, as `String.prototype.toLowerCase`
does on the ASCII texts handled by the bot. -/
def jsLowerChar (c : Char) : Char :=
  if 'A' ≤ c && c ≤ 'Z' then Char.ofNat (c.toNat + 32) else c

/-- `message.toLowerCase()`. -/
def jsToLower (s : String) : String := String.mk (s.data.map jsLowerChar)

/-- `String.prototype.trim()`: strip whitespace from both ends. -/
def jsTrim (s : String) : String :=
  String.mk (((s.data.dropWhile isJsSpace).reverse.dropWhile isJsSpace).reverse)

/-- `haystack.includes(needle)`. -/
def jsIncludes (s pat : String) : Bool :=
  (List.range (s.data.length + 1)).any (fun i => pat.data.isPrefixOf (s.data.drop i))

/-- `s.startsWith(p)`. -/
def jsStartsWith (s pat : String) : Bool := pat.data.isPrefixOf s.data

/-- Helper for `String.prototype.split(sep)` (`sep` non-empty at all call
sites); the fuel argument bounds the recursion by the input length. -/
def jsSplitGo (sep : List Char) : Nat → List Char → List Char → List (List Char)
  | 0, acc, rest => [acc.reverse ++ rest]
  | fuel + 1, acc, l =>
    if sep ≠ [] ∧ sep.isPrefixOf l then
      acc.reverse :: jsSplitGo sep fuel [] (l.drop sep.length)
    else
      match l with
      | [] => [acc.reverse]
      | c :: rest => jsSplitGo sep fuel (c :: acc) rest

/-- `s.split(sep)`. -/
def jsSplitOn (s sep : String) : List String :=
  (jsSplitGo sep.data (s.data.length + 1) [] s.data).map String.mk

/-- Numeric value of a decimal digit string (`parseInt` on an all-digit
match). -/
def digitsToNat (l : List Char) : Nat :=
  l.foldl (fun acc c => acc * 10 + (c.toNat - '0'.toNat)) 0

/-- Whether position `i` of `t` is a JS regex word boundary `\b`. -/
def isBoundary (t : List Char) (i : Nat) : Bool :=
  let left := if i = 0 then false else
    match t.get? (i - 1) with
    | some c => isWordChar c
    | none => false
  let right :=
    match t.get? i with
    | some c => isWordChar c
    | none => false
  left != right

/-- `/^\d{3,4}$/.test(text)`. -/
def isDigits34 (s : String) : Bool :=
  (s.data.length == 3 || s.data.length == 4) && s.data.all Char.isDigit

/-- JS truthiness of a nullable string (`null` and `""` are falsy). -/
def jsStrTruthy : Option String → Bool
  | none => false
  | some s => !s.isEmpty

/-- JS truthiness of a nullable number (`null` and `0` are falsy). -/
def jsNatTruthy : Option Nat → Bool
  | none => false
  | some n => n != 0

/-! ## Data model

Mirrors the JavaScript objects: menu items produced by `getAllMenuItems`,
parsed order items, the per-guest conversation state kept in `userStates`,
the parse result of `parseUserMessage`, and persisted order records. -/

/-- One entry of the flat menu list built by `getAllMenuItems`. -/
structure MenuItem where
  name : String
  full_name : String
  price : Nat
  category : Option String
deriving Repr, DecidableEq

/-- One entry of a parsed cart (`result.orderItems` / `state.items`). -/
structure OrderItem where
  name : String
  full_name : String
  quantity : Nat
  price : Nat
deriving Repr, DecidableEq

/-- The per-guest conversation state stored in the `userStates` map. -/
structure UserState where
  awaitingConfirmation : Bool
  items : List OrderItem
  room : Option String
  awaitingRating : Bool
  lastOrderId : Option Nat
deriving Repr, DecidableEq

/-- Result of `parseUserMessage`. -/
structure ParseResult where
  intent : String
  roomNumber : Option String
  orderItems : List OrderItem
deriving Repr, DecidableEq

/-- A line of a persisted order record. -/
structure StoredOrderItem where
  name : String
  quantity : Nat
  price : Nat
  subtotal : Nat
deriving Repr, DecidableEq

/-- A persisted order record (`newOrder` in `placeOrder`). -/
structure Order where
  id : Nat
  room : String
  items : List StoredOrderItem
  total : Nat
  guestNumber : String
  status : String
deriving Repr, DecidableEq

/-- The menu configuration snapshot (`loadMenuConfig().menu`): category
name to raw `"Name - ₹Price"` strings. -/
structure MenuConfig where
  menu : List (String × List String)
deriving Repr, DecidableEq

/-! ## getAllMenuItems

From `src/Combined.js` lines 128-155 (identical in `src/script.js`
lines 69-96): flatten the category lists, split each raw entry on
`" - "`, take the trimmed left part as the name (falling back to
`Unknown Item` for a falsy part), parse the first digit run of the right
part as the price, and drop `unknown item` entries. -/

/-- First maximal digit run of a string (`parts[1].match(/\d+/)`). -/
def firstDigitRun (l : List Char) : Option (List Char) :=
  match l.dropWhile (fun c => !c.isDigit) with
  | [] => none
  | rest => some (rest.takeWhile Char.isDigit)

/-- Parse one raw `"Name - ₹Price"` menu entry into a `MenuItem`. -/
def parseMenuEntry (cfg : MenuConfig) (raw : String) : MenuItem :=
  let parts := jsSplitOn raw " - "
  let p0 := parts.getD 0 ""
  let name := if p0 = "" then "Unknown Item" else jsTrim p0
  let price :=
    match parts.getD 1 "" with
    | p1 => if p1 = "" then 0 else
      match firstDigitRun p1.data with
      | some ds => digitsToNat ds
      | none => 0
  { name := jsToLower name
    full_name := name
    price := price
    category := (cfg.menu.find? (fun p => p.2.contains raw)).map (·.1) }

/-- `getAllMenuItems`: the flat list of orderable items of a menu
configuration. -/
def getAllMenuItems (cfg : MenuConfig) : List MenuItem :=
  (((cfg.menu.map Prod.snd).flatten).map (parseMenuEntry cfg)).filter
    (fun it => it.name ≠ "unknown item")

/-! ## Item matching

Faithful model of the scan of
`new RegExp("(?:(\\d+|one|two|three|four|five|a|an)\\s+)?\\b(NAME)\\b", "gi")`
with `text.matchAll`: positions are tried left to right; at each position
the optional quantity group is tried first (alternatives in the pattern's
order, `\d+` and `\s+` greedy), then the bare `\b NAME \b`; after a match
the scan resumes at the match end. -/

/-- Try one quantity alternative `qtext` at position `i` (so the name must
follow one or more whitespace characters after the quantity token). -/
def tryQuantAlt (t : List Char) (nm : List Char) (i : Nat) (qtext rest1 : List Char) :
    Option (Nat × Option (List Char)) :=
  let ws := rest1.takeWhile isJsSpace
  if ws.isEmpty then none
  else
    let k := i + qtext.length + ws.length
    if isBoundary t k && nm.isPrefixOf (t.drop k) && isBoundary t (k + nm.length) then
      some (k + nm.length, some qtext)
    else none

/-- The word alternatives of the quantity group, in the pattern's order. -/
def quantWords : List (List Char) :=
  ["one".data, "two".data, "three".data, "four".data, "five".data, "a".data, "an".data]

/-- Match the item regex at one fixed position `i`; returns the end
position of the match and the captured quantity group. -/
def itemMatchAt (t nm : List Char) (i : Nat) : Option (Nat × Option (List Char)) :=
  let u := t.drop i
  let digitAlt :=
    let ds := u.takeWhile Char.isDigit
    if ds.isEmpty then none else tryQuantAlt t nm i ds (u.drop ds.length)
  match digitAlt with
  | some r => some r
  | none =>
    match quantWords.findSome?
        (fun w => if w.isPrefixOf u then tryQuantAlt t nm i w (u.drop w.length) else none) with
    | some r => some r
    | none =>
      if isBoundary t i && nm.isPrefixOf u && isBoundary t (i + nm.length) then
        some (i + nm.length, none)
      else none

/-- First match of the item regex starting at or after position `i`. -/
def findItemMatchFrom (t nm : List Char) (i : Nat) : Option (Nat × Option (List Char)) :=
  (List.range (t.length + 1)).findSome?
    (fun j => if j < i then none else itemMatchAt t nm j)

/-- Collect the quantity groups of all matches, resuming after each match
(`lastIndex` semantics of a global regex); fuel bounds the scan. -/
def allMatchesGo (t nm : List Char) : Nat → Nat → List (Option (List Char))
  | 0, _ => []
  | fuel + 1, i =>
    match findItemMatchFrom t nm i with
    | none => []
    | some (endPos, q) => q :: allMatchesGo t nm fuel endPos

/-- All matches of one item's regex against the text. -/
def allItemMatches (t nm : List Char) : List (Option (List Char)) :=
  if nm.isEmpty then [] else allMatchesGo t nm (t.length + 1) 0

/-- Quantity of one match, from the captured group (the `match[1]`
branches of the source). -/
def parseQuantity (g : Option (List Char)) : Nat :=
  match g with
  | none => 1
  | some q =>
    if q = "one".data || q = "a".data || q = "an".data then 1
    else if q = "two".data then 2
    else if q = "three".data then 3
    else if q = "four".data then 4
    else if q = "five".data then 5
    else digitsToNat q

/-- `itemCounts[name] = (itemCounts[name] || 0) + quantity` on an
insertion-ordered association list (JS object key order). -/
def bumpCount (counts : List (String × Nat)) (nm : String) (q : Nat) : List (String × Nat) :=
  if counts.any (fun p => p.1 = nm) then
    counts.map (fun p => if p.1 = nm then (p.1, p.2 + q) else p)
  else counts ++ [(nm, q)]

/-- Rebuild `result.orderItems` from the accumulated counts
(`Object.keys(itemCounts).map(...)` with a `menuItems.find` lookup). -/
def countsToOrderItems (menuItems : List MenuItem) (counts : List (String × Nat)) :
    List OrderItem :=
  counts.map (fun p =>
    match menuItems.find? (fun it => it.name = p.1) with
    | some d => { name := d.name, full_name := d.full_name, quantity := p.2, price := d.price }
    | none => { name := p.1, full_name := p.1, quantity := p.2, price := 0 })

/-! ## Room-number matching

`text.match(/(room|rm|#|\b)(\d{3,4})\b/)` (with
`text.match(/\b(\d{3,4})\b/)` as fallback in `Combined.js`); the result
used by the source is the digit group. -/

/-- Greedy `\d{3,4}` at position `j` followed by `\b`. -/
def digitsTok (t : List Char) (j : Nat) : Option (List Char) :=
  let u := t.drop j
  let d4 := u.take 4
  if d4.length == 4 && d4.all Char.isDigit && isBoundary t (j + 4) then some d4
  else
    let d3 := u.take 3
    if d3.length == 3 && d3.all Char.isDigit && isBoundary t (j + 3) then some d3
    else none

/-- Match `(room|rm|#|\b)(\d{3,4})\b` at position `j` (the alternation is
tried in the pattern's order). -/
def roomMatchAt1 (t : List Char) (j : Nat) : Option (List Char) :=
  let u := t.drop j
  let tryLabel (p : List Char) : Option (List Char) :=
    if p.isPrefixOf u then digitsTok t (j + p.length) else none
  match tryLabel "room".data with
  | some d => some d
  | none =>
    match tryLabel "rm".data with
    | some d => some d
    | none =>
      match tryLabel "#".data with
      | some d => some d
      | none => if isBoundary t j then digitsTok t j else none

/-- Match `\b(\d{3,4})\b` at position `j` (the fallback regex). -/
def roomMatchAt2 (t : List Char) (j : Nat) : Option (List Char) :=
  if isBoundary t j then digitsTok t j else none

/-- First match of a positional matcher over the whole text. -/
def scanFirst (f : List Char → Nat → Option (List Char)) (t : List Char) :
    Option (List Char) :=
  (List.range (t.length + 1)).findSome? (fun j => f t j)

/-! ## Shared keyword lists -/

/-- ASCII apostrophe, written by code point to keep the embedding plain. -/
def apos : Char := Char.ofNat 39

/-- The keyword `"i'd like"` of the order-keyword lists. -/
def idLike : String := "i" ++ String.singleton apos ++ "d like"

/-- Order keywords of `Combined.js` and `script.js`. -/
def orderKeywords : List String :=
  ["order", "get", "like", "have", "bring me", "want", "need", idLike]

/-- Menu keywords of `script.js` (`Combined.js` tests the same four
substrings inline). -/
def menuKeywords : List String := ["menu", "food", "what do you have", "offer"]

/-- Greeting keywords of both parser variants. -/
def greetingKeywords : List String := ["hello", "hi", "hey", "good"]

/-- Thanks keywords of `script.js` (absent from `Combined.js`). -/
def thanksKeywords : List String := ["thanks", "thank you", "cheers"]

namespace Combined

/-! ## The parser of `src/Combined.js` (`parseUserMessage`, lines 976-1062)

Identical to `src/unnamed/part_002` lines 361-447. -/

/-- Accumulate item counts over the whole catalog, in catalog order
(`menuItems.forEach`, no sorting and no early exit). -/
def combinedItemCounts (t : List Char) (menuItems : List MenuItem) : List (String × Nat) :=
  menuItems.foldl
    (fun counts it =>
      (allItemMatches t it.name.data).foldl
        (fun cs g => bumpCount cs it.name (parseQuantity g)) counts)
    []

/-- `parseUserMessage(message, currentState, phone)`; the menu snapshot
read through `getAllMenuItems(phone)` is the `cfg` parameter. -/
def parseUserMessage (message : String) (currentState : UserState) (cfg : MenuConfig) :
    ParseResult :=
  let text := jsTrim (jsToLower message)
  if isDigits34 text && !currentState.items.isEmpty then
    { intent := "provide_room_only", roomNumber := some text, orderItems := [] }
  else
    let t := text.data
    let roomNumber :=
      match scanFirst roomMatchAt1 t with
      | some d => some (String.mk d)
      | none => (scanFirst roomMatchAt2 t).map String.mk
    let menuItems := getAllMenuItems cfg
    let itemCounts := combinedItemCounts t menuItems
    let orderItems := countsToOrderItems menuItems itemCounts
    let intent :=
      if orderKeywords.any (fun k => jsIncludes text k) || !orderItems.isEmpty then "order"
      else if jsIncludes text "menu" || jsIncludes text "food" ||
          jsIncludes text "what do you have" || jsIncludes text "offer" then "menu"
      else if jsIncludes text "hello" || jsIncludes text "hi" ||
          jsIncludes text "hey" || jsIncludes text "good" then "greeting"
      else if roomNumber.isSome then "provide_room_only"
      else "unknown"
    { intent := intent, roomNumber := roomNumber, orderItems := orderItems }

end Combined

namespace ScriptJs

/-! ## The parser of `src/script.js` (`parseUserMessage`, lines 388-484) -/

/-- Stable insertion of one item into a list kept in descending order of
name length (elements of equal length keep their relative order, as the
spec-mandated stable `Array.prototype.sort` does). -/
def insertByLenDesc (x : MenuItem) : List MenuItem → List MenuItem
  | [] => [x]
  | y :: ys => if x.name.length > y.name.length then x :: y :: ys else y :: insertByLenDesc x ys

/-- `menuItems.sort((a, b) => b.name.length - a.name.length)`. -/
def sortByNameLenDesc (l : List MenuItem) : List MenuItem :=
  l.foldl (fun acc x => insertByLenDesc x acc) []

/-- The item loop of `script.js`: walk the sorted catalog and stop after
the first item that has any match (the `break` of the source). -/
def scriptItemCounts (t : List Char) : List MenuItem → List (String × Nat)
  | [] => []
  | it :: rest =>
    let ms := allItemMatches t it.name.data
    if !ms.isEmpty then
      ms.foldl (fun cs g => bumpCount cs it.name (parseQuantity g)) []
    else scriptItemCounts t rest

/-- The intent cascade of `script.js` lines 465-481. -/
def scriptIntent (text : String) (roomNumber : Option String) (orderItems : List OrderItem) :
    String :=
  if orderKeywords.any (fun k => jsIncludes text k) || !orderItems.isEmpty then "order"
  else if menuKeywords.any (fun k => jsIncludes text k) then "menu"
  else if greetingKeywords.any (fun k => jsIncludes text k) then "greeting"
  else if thanksKeywords.any (fun k => jsIncludes text k) then "thanks"
  else if roomNumber.isSome && orderItems.isEmpty then "provide_room_only"
  else "unknown"

/-- `parseUserMessage(message, currentState)` of `script.js`; the
`currentState` parameter is unused by this variant's body. -/
def parseUserMessage (message : String) (_currentState : UserState) (cfg : MenuConfig) :
    ParseResult :=
  let text := jsTrim (jsToLower message)
  let t := text.data
  let roomNumber := (scanFirst roomMatchAt1 t).map String.mk
  let menuItems := sortByNameLenDesc (getAllMenuItems cfg)
  let itemCounts := scriptItemCounts t menuItems
  let orderItems := countsToOrderItems menuItems itemCounts
  { intent := scriptIntent text roomNumber orderItems
    roomNumber := roomNumber
    orderItems := orderItems }

end ScriptJs

/-! ## Outbound messages

Each constructor stands for one `sendMessage` call site of
`src/Combined.js`; the recipient (guest or hotel admin) is part of the
constructor name. Message bodies are summarized by their parameters. -/

inductive OutMsg where
  | guestRatingThanks (rating : String)
  | adminRatingForward (rating : String) (orderId : Option Nat)
  | guestMenuCategory (category : String)
  | guestMenuCategoryNotFound
  | guestHelpReception
  | guestHelpAmenities
  | guestHelpRoom
  | guestChatReset
  | guestHelpOptions
  | guestOrderStatus (id : Nat) (status : String) (room : String)
  | guestOrderNotFound
  | guestOrderCancelled
  | guestConfirmUnclear
  | guestRoomNoted (room : String)
  | guestFullMenu
  | guestMenuCategories
  | guestWelcome
  | guestFallback
  | guestNeedRoom
  | guestAskItems
  | guestOrderSummary (room : String) (total : Nat)
  | guestNeedRoomForOrder
  | guestNeedItemsForOrder
  | guestOrderPlaced (orderId : Nat) (room : String) (total : Nat)
deriving Repr, DecidableEq

namespace Combined

/-! ## The conversation handler of `src/Combined.js`

`handleMessage` (lines 767-890), `handleOrderIntent` (lines 1067-1092)
and `placeOrder` (lines 1097-1151), modelled as pure functions: the
`userStates` entry of the sender, the persisted order list and the set of
sent messages are explicit inputs/outputs.  `Date.now()` is the `now`
parameter. -/

/-- Result of `placeOrder`: the persisted order list, the messages sent,
and the `userStates.set` performed by the function (`none` on the failure
paths, which do not touch the map). -/
structure PlaceResult where
  orders : List Order
  sent : List OutMsg
  setState : Option UserState
deriving Repr, DecidableEq

/-- `placeOrder(client, from, state, phone, hotelName)`. -/
def placeOrder (from_ : String) (state : UserState) (orders : List Order) (now : Nat) :
    PlaceResult :=
  if !jsStrTruthy state.room then
    { orders := orders, sent := [.guestNeedRoomForOrder], setState := none }
  else if state.items.isEmpty then
    { orders := orders, sent := [.guestNeedItemsForOrder], setState := none }
  else
    let orderId := now
    let orderItems := state.items.map (fun it =>
      let q := if it.quantity = 0 then 1 else it.quantity
      { name := if it.full_name = "" then it.name else it.full_name
        quantity := q
        price := it.price
        subtotal := it.price * q : StoredOrderItem })
    let total := orderItems.foldl (fun sum it => sum + it.subtotal) 0
    let room := jsTrim (state.room.getD "")
    let newOrder : Order :=
      { id := orderId, room := room, items := orderItems, total := total
        guestNumber := from_, status := "Pending" }
    { orders := orders ++ [newOrder]
      sent := [.guestOrderPlaced orderId room total]
      setState := some { state with lastOrderId := some orderId, awaitingRating := false } }

/-- `handleOrderIntent(client, from, state, hotelName, phone)`: returns
the updated state and the messages sent. -/
def handleOrderIntent (state : UserState) : UserState × List OutMsg :=
  if !jsStrTruthy state.room then (state, [.guestNeedRoom])
  else if state.items.isEmpty then (state, [.guestAskItems])
  else
    let total := state.items.foldl (fun sum it => sum + it.price * it.quantity) 0
    ({ state with awaitingConfirmation := true },
     [.guestOrderSummary (state.room.getD "") total])

/-- `sendMenuCategory(client, from, category, phone)`. -/
def sendMenuCategory (cfg : MenuConfig) (category : String) : List OutMsg :=
  if (cfg.menu.lookup category).isSome then [.guestMenuCategory category]
  else [.guestMenuCategoryNotFound]

/-- Result of `handleMessage`: the sender's `userStates` entry after the
call (`none` when the entry was deleted), the persisted order list, and
the messages sent, in order. -/
structure HandleResult where
  newState : Option UserState
  orders : List Order
  sent : List OutMsg
deriving Repr, DecidableEq

/-- `handleMessage(client, from, userMsg, state, phone, hotelName)`. -/
def handleMessage (from_ userMsg : String) (state : UserState) (orders : List Order)
    (cfg : MenuConfig) (now : Nat) : HandleResult :=
  if jsStartsWith userMsg "rate_" then
    let rating := (jsSplitOn userMsg "_").getD 1 ""
    if state.awaitingRating then
      { newState := some { state with awaitingRating := false }
        orders := orders
        sent := [.guestRatingThanks rating, .adminRatingForward rating state.lastOrderId] }
    else { newState := some state, orders := orders, sent := [] }
  else if jsStartsWith userMsg "menu_" then
    let category := (jsSplitOn userMsg "_").getD 1 ""
    { newState := some state, orders := orders, sent := sendMenuCategory cfg category }
  else if jsStartsWith userMsg "help_" then
    { newState := some state, orders := orders
      sent :=
        if userMsg = "help_reception" then [.guestHelpReception]
        else if userMsg = "help_amenities" then [.guestHelpAmenities]
        else if userMsg = "help_room" then [.guestHelpRoom]
        else [] }
  else if jsToLower userMsg = "reset" then
    { newState := none, orders := orders, sent := [.guestChatReset] }
  else if jsIncludes (jsToLower userMsg) "help" then
    { newState := some state, orders := orders, sent := [.guestHelpOptions] }
  else if jsIncludes (jsToLower userMsg) "status" && jsNatTruthy state.lastOrderId then
    match orders.find? (fun o => some o.id = state.lastOrderId) with
    | some o =>
      { newState := some state, orders := orders
        sent := [.guestOrderStatus o.id o.status o.room] }
    | none => { newState := some state, orders := orders, sent := [.guestOrderNotFound] }
  else if state.awaitingConfirmation then
    let lower := jsToLower userMsg
    if jsIncludes lower "yes" || jsIncludes lower "confirm" || jsIncludes lower "place order" then
      let pr := placeOrder from_ state orders now
      { newState := none, orders := pr.orders, sent := pr.sent }
    else if jsIncludes lower "no" || jsIncludes lower "cancel" then
      { newState := some { state with awaitingConfirmation := false, items := [] }
        orders := orders
        sent := [.guestOrderCancelled] }
    else { newState := some state, orders := orders, sent := [.guestConfirmUnclear] }
  else
    let parsed := parseUserMessage userMsg state cfg
    let state1 := if parsed.roomNumber.isSome then { state with room := parsed.roomNumber }
      else state
    let roomMsgs : List OutMsg := if parsed.roomNumber.isSome then
      [.guestRoomNoted (parsed.roomNumber.getD "")] else []
    let state2 := if !parsed.orderItems.isEmpty then { state1 with items := parsed.orderItems }
      else state1
    if parsed.intent = "order" then
      let (state3, msgs) := handleOrderIntent state2
      { newState := some state3, orders := orders, sent := roomMsgs ++ msgs }
    else if parsed.intent = "menu" then
      { newState := some state2, orders := orders
        sent := roomMsgs ++ [.guestFullMenu, .guestMenuCategories] }
    else if parsed.intent = "greeting" then
      { newState := some state2, orders := orders, sent := roomMsgs ++ [.guestWelcome] }
    else if parsed.intent = "provide_room_only" then
      { newState := some state2, orders := orders, sent := roomMsgs }
    else
      { newState := some state2, orders := orders, sent := roomMsgs ++ [.guestFallback] }

end Combined

/-! ## The message deduplication window

From `src/Combined.js` lines 724-732 (identical in `src/script.js`
lines 137-145 and `src/unnamed/part_001` lines 114-123): a JS `Set` of
processed message ids, checked before handling; after each insertion, if
the size exceeds 100, the oldest entry (first insertion order) is
deleted.  Modelled as a duplicate-free list, oldest first. -/

/-- One delivery through the deduplication guard: returns whether the
message is handled downstream, and the updated window. -/
def dedupProcess (window : List String) (msgId : String) : Bool × List String :=
  if window.contains msgId then (false, window)
  else
    let w := window ++ [msgId]
    (true, if w.length > 100 then w.drop 1 else w)

/-! ## Session closure handling

`src/script.js` lines 113-127 and the `connectToWhatsApp` variant of
`src/unnamed/part_001` lines 427-468.  The Baileys `DisconnectReason`
codes are modelled as an inductive (the source compares the reported
status code against the named constants); `other` covers every
unrecognized code. -/

inductive DisconnectReason where
  | badSession
  | connectionClosed
  | connectionLost
  | loggedOut
  | restartRequired
  | timedOut
  | other (code : Nat)
deriving Repr, DecidableEq

/-- Observable outcome of one `connection.update` close event. -/
structure CloseOutcome where
  reconnects : Bool
  credsCleared : Bool
  socketEnded : Bool
deriving Repr, DecidableEq

/-- The close branch of `connectToWhatsApp` in `src/unnamed/part_001`:
every recognized reason (including `badSession` and `loggedOut`, whose
branches only log advice to rescan) calls `connectToWhatsApp()` again
with the same `useMultiFileAuthState('auth')` store; an unrecognized
reason ends the socket.  No branch clears the stored credentials. -/
def part001CloseOutcome (reason : DisconnectReason) : CloseOutcome :=
  if reason = .badSession then { reconnects := true, credsCleared := false, socketEnded := false }
  else if reason = .connectionClosed then
    { reconnects := true, credsCleared := false, socketEnded := false }
  else if reason = .connectionLost then
    { reconnects := true, credsCleared := false, socketEnded := false }
  else if reason = .loggedOut then
    { reconnects := true, credsCleared := false, socketEnded := false }
  else if reason = .restartRequired then
    { reconnects := true, credsCleared := false, socketEnded := false }
  else if reason = .timedOut then
    { reconnects := true, credsCleared := false, socketEnded := false }
  else { reconnects := false, credsCleared := false, socketEnded := true }

/-- Whether `part001CloseOutcome` recognizes the reason. -/
def recognizedReason : DisconnectReason → Bool
  | .other _ => false
  | _ => true

/-- The close branch of `startBotConnection` in `src/script.js`:
`(lastDisconnect.error instanceof Boom)?.output?.statusCode` applies
optional chaining to the Boolean result of `instanceof`, which has no
`output` property, so the status code read is always `undefined`
(`none` here) and `undefined !== DisconnectReason.loggedOut` holds for
every error.  The handler never clears credentials. -/
def scriptCloseOutcome (_errIsBoom : Bool) : CloseOutcome :=
  let statusCode : Option DisconnectReason := none
  let shouldReconnect := statusCode ≠ some .loggedOut
  { reconnects := shouldReconnect, credsCleared := false, socketEnded := false }

/-! ## Concrete fixtures used by the theorems -/

/-- The fallback menu of `loadMenuConfig` (`src/Combined.js`
lines 103-117, identical in `src/script.js`). -/
def defaultMenuConfig : MenuConfig :=
  { menu :=
      [("breakfast",
        ["Continental Breakfast - ₹500", "Full English Breakfast - ₹750",
         "Pancakes with Maple Syrup - ₹450"]),
       ("lunch",
        ["Grilled Chicken Sandwich - ₹650", "Margherita Pizza - ₹800",
         "Vegetable Pasta - ₹550"]),
       ("dinner",
        ["Grilled Salmon - ₹1200", "Beef Steak - ₹1500", "Vegetable Curry - ₹600"]),
       ("roomService",
        ["Club Sandwich - ₹450", "Chicken Burger - ₹550", "Chocolate Lava Cake - ₹350"])] }

/-- A catalog containing both `Burger` and `Chicken Burger`, the
substring-overlap scenario of the spec. -/
def burgerMenuConfig : MenuConfig :=
  { menu := [("roomService", ["Burger - ₹300", "Chicken Burger - ₹550"])] }

/-- The initial conversation state created on first contact
(`src/Combined.js` lines 737-744). -/
def initState : UserState :=
  { awaitingConfirmation := false, items := [], room := none
    awaitingRating := false, lastOrderId := none }

/-- The cart of the spec's concrete scenario: 2 pizzas and 1 coffee. -/
def scenarioCart : List OrderItem :=
  [{ name := "margherita pizza", full_name := "Margherita Pizza", quantity := 2, price := 800 },
   { name := "filter coffee", full_name := "Filter Coffee", quantity := 1, price := 150 }]

/-- A conversation awaiting confirmation of the scenario cart for
room 105. -/
def confirmingState : UserState :=
  { awaitingConfirmation := true, items := scenarioCart, room := some "105"
    awaitingRating := false, lastOrderId := none }

/-- Claim-side intent precedence, written from the claim's words: order
keyword or non-empty item list, else menu keyword, else greeting keyword,
else thanks keyword, else a detected room number with no items, else
unknown. -/
def claimIntentPrecedence (orderKw menuKw greetKw thanksKw : List String)
    (text : String) (roomNumber : Option String) (orderItems : List OrderItem) : String :=
  if orderKw.any (fun k => jsIncludes text k) || !orderItems.isEmpty then "order"
  else if menuKw.any (fun k => jsIncludes text k) then "menu"
  else if greetKw.any (fun k => jsIncludes text k) then "greeting"
  else if thanksKw.any (fun k => jsIncludes text k) then "thanks"
  else if roomNumber.isSome && orderItems.isEmpty then "provide_room_only"
  else "unknown"

/-! ## Helper lemmas -/

/-- `handleOrderIntent` never changes the cart contents. -/
theorem handleOrderIntent_preserves_items (s : UserState) :
    ((Combined.handleOrderIntent s).1).items = s.items := by
  unfold Combined.handleOrderIntent
  split
  · rfl
  · split <;> rfl

/-! ## Claim theorems -/

/-- Claim C1 (code bug): in the awaiting-confirmation state with a
stored room number and the spec scenario's cart (2 Margherita Pizza at
800, 1 Filter Coffee at 150), the affirmative reply `yes` appends exactly
one order whose total 1750 is the sum of the line subtotals and sends the
guest confirmation — but no admin notification is sent (contrary to
`placeOrder`'s own doc comment "notifying the admin") and the
conversation entry is deleted instead of moving to an awaiting-rating
state. -/
theorem c1_confirmation_order_flow :
    Combined.handleMessage "guest1" "yes" confirmingState [] defaultMenuConfig 1111 =
      { newState := none
        orders := [{ id := 1111, room := "105"
                     items := [{ name := "Margherita Pizza", quantity := 2, price := 800,
                                 subtotal := 1600 },
                               { name := "Filter Coffee", quantity := 1, price := 150,
                                 subtotal := 150 }]
                     total := 1750, guestNumber := "guest1", status := "Pending" }]
        sent := [.guestOrderPlaced 1111 "105" 1750] } := rfl

/-- Claim C2 (code bug): parsing `chicken burger` against a catalog
containing both `Burger` and `Chicken Burger`, the `Combined.js` parser
counts both entries (double-counting the substring item), while the
`script.js` parser — which carries the `FIX: Sort menu items by length`
comment — returns exactly one parsed item, Chicken Burger with
quantity 1, as the claim states. -/
theorem c2_substring_specificity :
    ((Combined.parseUserMessage "chicken burger" initState burgerMenuConfig).orderItems.map
        (fun it => (it.name, it.quantity)) = [("burger", 1), ("chicken burger", 1)]) ∧
    ((ScriptJs.parseUserMessage "chicken burger" initState burgerMenuConfig).orderItems.map
        (fun it => (it.name, it.quantity)) = [("chicken burger", 1)]) :=
  ⟨rfl, rfl⟩

/-- Claim C3: whenever the prior state holds a non-empty cart and the
trimmed lowercased message is exactly 3-4 digits, the `Combined.js`
parser returns that digit string as the room number with intent
`provide_room_only` and an empty item list, for every menu
configuration. -/
theorem c3_bare_digits_room_only (msg : String) (st : UserState) (cfg : MenuConfig)
    (hitems : st.items ≠ [])
    (hdig : isDigits34 (jsTrim (jsToLower msg)) = true) :
    Combined.parseUserMessage msg st cfg =
      { intent := "provide_room_only", roomNumber := some (jsTrim (jsToLower msg))
        orderItems := [] } := by
  have hne : st.items.isEmpty = false := by
    cases h : st.items with
    | nil => exact absurd h hitems
    | cons a l => rfl
  unfold Combined.parseUserMessage
  simp [hdig, hne]

/-- Witness for C3: the message `105` with a pending two-line cart. -/
theorem c3_bare_digits_room_only_witness :
    ({ initState with items := scenarioCart } : UserState).items ≠ [] ∧
    isDigits34 (jsTrim (jsToLower "105")) = true ∧
    Combined.parseUserMessage "105" { initState with items := scenarioCart }
        defaultMenuConfig =
      { intent := "provide_room_only", roomNumber := some (jsTrim (jsToLower "105"))
        orderItems := [] } :=
  ⟨by decide, by decide,
   c3_bare_digits_room_only "105" { initState with items := scenarioCart }
     defaultMenuConfig (by decide) (by decide)⟩

/-- Claim C4 (amended): the `script.js` parser's intent is exactly the
claimed precedence cascade — order keyword or non-empty item list, else
menu keyword, else greeting keyword, else thanks keyword, else detected
room number with no items, else unknown — applied to the parser's own
keyword lists and its detected room number and item list. (The
`Combined.js` parser deviates: it has no thanks branch.) -/
theorem c4_intent_precedence_script (msg : String) (st : UserState) (cfg : MenuConfig) :
    (ScriptJs.parseUserMessage msg st cfg).intent =
      claimIntentPrecedence orderKeywords menuKeywords greetingKeywords thanksKeywords
        (jsTrim (jsToLower msg))
        (ScriptJs.parseUserMessage msg st cfg).roomNumber
        (ScriptJs.parseUserMessage msg st cfg).orderItems := rfl

/-- Counterexample for C4 as stated: the `Combined.js` parser maps the
message `thanks` to intent `unknown`, while the claimed precedence
(which includes a thanks rule) yields `thanks`. -/
theorem c4_combined_thanks_counterexample :
    (Combined.parseUserMessage "thanks" initState defaultMenuConfig).intent = "unknown" ∧
    claimIntentPrecedence orderKeywords menuKeywords greetingKeywords thanksKeywords
      "thanks" none [] = "thanks" :=
  ⟨rfl, rfl⟩

/-- Claim C5: for a window within its bound, (1) an identifier present in
the window is never reprocessed and leaves the window unchanged, (2) a
fresh identifier is handled, (3) redelivering the same identifier right
after the first delivery is not handled again (exactly one downstream
call), (4) the window size never exceeds the fixed bound 100 after an
insertion, and (5) when a fresh identifier is inserted, eviction removes
exactly the oldest entry (FIFO) and only when the window is full. -/
theorem c5_dedup_window_spec (w : List String) (id : String) (hw : w.length ≤ 100) :
    (w.contains id = true → dedupProcess w id = (false, w)) ∧
    (w.contains id = false → (dedupProcess w id).1 = true) ∧
    ((dedupProcess (dedupProcess w id).2 id).1 = false) ∧
    ((dedupProcess w id).2.length ≤ 100) ∧
    (w.contains id = false →
      (dedupProcess w id).2 = if w.length = 100 then w.drop 1 ++ [id] else w ++ [id]) := by
  by_cases hm : id ∈ w
  · have hc : w.contains id = true := List.elem_iff.mpr hm
    have h1 : dedupProcess w id = (false, w) := by
      unfold dedupProcess
      simp [hm]
    refine ⟨fun _ => h1, ?_, ?_, ?_, ?_⟩
    · intro h; rw [hc] at h; cases h
    · rw [h1]
      unfold dedupProcess
      simp [hm]
    · rw [h1]; exact hw
    · intro h; rw [hc] at h; cases h
  · have hc' : w.contains id = false := by
      cases h : w.contains id with
      | true => exact absurd (List.elem_iff.mp h) hm
      | false => rfl
    have hfirst : dedupProcess w id =
        (true, if (w ++ [id]).length > 100 then (w ++ [id]).drop 1 else w ++ [id]) := by
      unfold dedupProcess
      simp [hm]
    have hlen : (w ++ [id]).length = w.length + 1 := by simp
    refine ⟨?_, ?_, ?_, ?_, ?_⟩
    · intro h
      rw [h] at hc'; cases hc'
    · intro _
      rw [hfirst]
    · -- the freshly inserted id is still in the window, so the second
      -- delivery is suppressed
      have hin : id ∈ (dedupProcess w id).2 := by
        rw [hfirst]
        dsimp only
        by_cases hfull : (w ++ [id]).length > 100
        · have hd : (w ++ [id]).drop 1 = w.drop 1 ++ [id] :=
            List.drop_append_of_le_length (by omega)
          rw [if_pos hfull, hd]
          simp
        · rw [if_neg hfull]
          simp
      generalize hgen : (dedupProcess w id).2 = w2 at hin ⊢
      unfold dedupProcess
      simp [hin]
    · rw [hfirst]
      dsimp only
      by_cases hfull : (w ++ [id]).length > 100
      · rw [if_pos hfull, List.length_drop]
        omega
      · rw [if_neg hfull]
        omega
    · intro _
      rw [hfirst]
      dsimp only
      by_cases hfull : w.length = 100
      · have hgt : (w ++ [id]).length > 100 := by omega
        rw [if_pos hgt, if_pos hfull]
        exact List.drop_append_of_le_length (by omega)
      · have hgt : ¬ (w ++ [id]).length > 100 := by omega
        rw [if_neg hgt, if_neg hfull]

/-- Witness for C5: a two-entry window and a fresh identifier. -/
theorem c5_dedup_window_spec_witness :
    (["m1", "m2"] : List String).length ≤ 100 ∧
    ((["m1", "m2"] : List String).contains "m3" = true →
      dedupProcess ["m1", "m2"] "m3" = (false, ["m1", "m2"])) ∧
    ((["m1", "m2"] : List String).contains "m3" = false →
      (dedupProcess ["m1", "m2"] "m3").1 = true) ∧
    ((dedupProcess (dedupProcess ["m1", "m2"] "m3").2 "m3").1 = false) ∧
    ((dedupProcess ["m1", "m2"] "m3").2.length ≤ 100) ∧
    ((["m1", "m2"] : List String).contains "m3" = false →
      (dedupProcess ["m1", "m2"] "m3").2 =
        if (["m1", "m2"] : List String).length = 100 then
          (["m1", "m2"] : List String).drop 1 ++ ["m3"]
        else ["m1", "m2"] ++ ["m3"]) :=
  ⟨by decide, c5_dedup_window_spec ["m1", "m2"] "m3" (by decide)⟩

set_option maxHeartbeats 1000000 in
/-- Claim C6 (amended): from the awaiting-confirmation state, any message
that is not the `reset` command and carries neither place-order semantics
(`yes`/`confirm`/`place order` substring) nor cancel semantics
(`no`/`cancel` substring) leaves the cart unchanged, keeps the
conversation awaiting confirmation, and appends no order. (The global
`reset` command is the exception the claim omits: it deletes the whole
conversation, cart included.) -/
theorem c6_awaiting_confirmation_frame (from_ msg : String) (st : UserState)
    (orders : List Order) (cfg : MenuConfig) (now : Nat)
    (hconf : st.awaitingConfirmation = true)
    (hreset : jsToLower msg ≠ "reset")
    (hyes : jsIncludes (jsToLower msg) "yes" = false)
    (hconfirm : jsIncludes (jsToLower msg) "confirm" = false)
    (hplace : jsIncludes (jsToLower msg) "place order" = false)
    (hno : jsIncludes (jsToLower msg) "no" = false)
    (hcancel : jsIncludes (jsToLower msg) "cancel" = false) :
    (Combined.handleMessage from_ msg st orders cfg now).newState.map (fun s => s.items)
        = some st.items ∧
    (Combined.handleMessage from_ msg st orders cfg now).newState.map
        (fun s => s.awaitingConfirmation) = some true ∧
    (Combined.handleMessage from_ msg st orders cfg now).orders = orders := by
  unfold Combined.handleMessage
  repeat' split
  all_goals dsimp only
  all_goals repeat' split
  all_goals simp_all

/-- Witness for C6: the unclear reply `hmm` while awaiting confirmation
of the scenario cart. -/
theorem c6_awaiting_confirmation_frame_witness :
    confirmingState.awaitingConfirmation = true ∧
    ((Combined.handleMessage "guest1" "hmm" confirmingState [] defaultMenuConfig 0).newState.map
        (fun s => s.items) = some confirmingState.items ∧
      (Combined.handleMessage "guest1" "hmm" confirmingState [] defaultMenuConfig 0).newState.map
        (fun s => s.awaitingConfirmation) = some true ∧
      (Combined.handleMessage "guest1" "hmm" confirmingState [] defaultMenuConfig 0).orders
        = []) :=
  ⟨rfl, c6_awaiting_confirmation_frame "guest1" "hmm" confirmingState [] defaultMenuConfig 0
    rfl (by decide) (by decide) (by decide) (by decide) (by decide) (by decide)⟩

/-- Counterexample for C6 as stated: `reset` carries neither place-order
nor cancel semantics, yet from the awaiting-confirmation state it deletes
the stored conversation (cart included), so the cart is not left
unchanged and the conversation no longer awaits confirmation. -/
theorem c6_reset_counterexample :
    confirmingState.awaitingConfirmation = true ∧
    jsIncludes (jsToLower "reset") "yes" = false ∧
    jsIncludes (jsToLower "reset") "confirm" = false ∧
    jsIncludes (jsToLower "reset") "place order" = false ∧
    jsIncludes (jsToLower "reset") "no" = false ∧
    jsIncludes (jsToLower "reset") "cancel" = false ∧
    (Combined.handleMessage "guest1" "reset" confirmingState [] defaultMenuConfig 0).newState
      = none := by
  decide

/-- Claim C7: `placeOrder` with a missing (or empty) room number or an
empty cart sends a single apology/reprompt to the guest instead of a
confirmation, leaves the persisted order list unchanged, creates no order
record, and performs no state write. -/
theorem c7_incomplete_order_no_side_effect (from_ : String) (st : UserState)
    (orders : List Order) (now : Nat)
    (h : jsStrTruthy st.room = false ∨ st.items = []) :
    (Combined.placeOrder from_ st orders now).orders = orders ∧
    ((Combined.placeOrder from_ st orders now).sent = [.guestNeedRoomForOrder] ∨
      (Combined.placeOrder from_ st orders now).sent = [.guestNeedItemsForOrder]) ∧
    (Combined.placeOrder from_ st orders now).setState = none := by
  unfold Combined.placeOrder
  by_cases hr : jsStrTruthy st.room = true
  · have hi : st.items = [] := by
      cases h with
      | inl h' => rw [hr] at h'; cases h'
      | inr h' => exact h'
    have hie : st.items.isEmpty = true := by rw [hi]; rfl
    rw [hr, hie]
    exact ⟨rfl, Or.inr rfl, rfl⟩
  · have hr' : jsStrTruthy st.room = false := by
      cases hq : jsStrTruthy st.room with
      | true => exact absurd hq hr
      | false => rfl
    rw [hr']
    exact ⟨rfl, Or.inl rfl, rfl⟩

/-- Witness for C7: awaiting confirmation with a room but an empty
cart. -/
theorem c7_incomplete_order_no_side_effect_witness :
    (jsStrTruthy ({ confirmingState with items := [] } : UserState).room = false ∨
      ({ confirmingState with items := [] } : UserState).items = []) ∧
    (Combined.placeOrder "guest1" { confirmingState with items := [] } [] 7).orders = [] ∧
    ((Combined.placeOrder "guest1" { confirmingState with items := [] } [] 7).sent
        = [.guestNeedRoomForOrder] ∨
      (Combined.placeOrder "guest1" { confirmingState with items := [] } [] 7).sent
        = [.guestNeedItemsForOrder]) ∧
    (Combined.placeOrder "guest1" { confirmingState with items := [] } [] 7).setState = none :=
  ⟨Or.inr rfl,
   c7_incomplete_order_no_side_effect "guest1" { confirmingState with items := [] } [] 7
     (Or.inr rfl)⟩

/-- Claim C8 (amended): the `part_001` closure handler reconnects with
the same stored credentials for every recognized reason — the transient
ones and also `loggedOut`/`badSession` — and ends the socket for an
unrecognized reason; the `script.js` handler reconnects for every
closure (its logged-out test reads `undefined` through optional chaining
on the `instanceof` result). Neither handler ever clears the stored
credentials. -/
theorem c8_closure_same_credentials (reason : DisconnectReason) (errIsBoom : Bool) :
    (part001CloseOutcome reason).credsCleared = false ∧
    (part001CloseOutcome reason).reconnects = recognizedReason reason ∧
    (part001CloseOutcome reason).socketEnded = !recognizedReason reason ∧
    scriptCloseOutcome errIsBoom =
      { reconnects := true, credsCleared := false, socketEnded := false } := by
  cases reason <;> exact ⟨rfl, rfl, rfl, rfl⟩

/-- Counterexample for C8 as stated: on the `loggedOut` reason the
`part_001` handler reconnects using the same stored credentials and does
not clear them (and produces no fresh pairing by invalidation), and the
`script.js` handler also reconnects without clearing. -/
theorem c8_logged_out_counterexample :
    part001CloseOutcome .loggedOut =
      { reconnects := true, credsCleared := false, socketEnded := false } ∧
    scriptCloseOutcome true =
      { reconnects := true, credsCleared := false, socketEnded := false } :=
  ⟨rfl, rfl⟩

/-- Claim C9: parsing is a pure function of the message text, the prior
conversation state and the menu snapshot: identical inputs produce
identical parse results. -/
theorem c9_parse_deterministic (t1 t2 : String) (s1 s2 : UserState) (m1 m2 : MenuConfig)
    (ht : t1 = t2) (hs : s1 = s2) (hm : m1 = m2) :
    Combined.parseUserMessage t1 s1 m1 = Combined.parseUserMessage t2 s2 m2 := by
  subst ht
  subst hs
  subst hm
  rfl

/-- Witness for C9: two identical runs on a concrete input. -/
theorem c9_parse_deterministic_witness :
    Combined.parseUserMessage "hi 202" initState defaultMenuConfig =
      Combined.parseUserMessage "hi 202" initState defaultMenuConfig :=
  c9_parse_deterministic "hi 202" "hi 202" initState initState defaultMenuConfig
    defaultMenuConfig rfl rfl rfl

set_option maxHeartbeats 1000000 in
/-- Claim C10: outside the awaiting-confirmation state, a non-reset
message whose parse extracts no items leaves the stored cart unchanged
(in particular a room-number-only message preserves a previously built
cart). -/
theorem c10_empty_parse_preserves_cart (from_ msg : String) (st : UserState)
    (orders : List Order) (cfg : MenuConfig) (now : Nat)
    (hconf : st.awaitingConfirmation = false)
    (hreset : jsToLower msg ≠ "reset")
    (hparse : (Combined.parseUserMessage msg st cfg).orderItems = []) :
    (Combined.handleMessage from_ msg st orders cfg now).newState.map (fun s => s.items) =
      some st.items := by
  unfold Combined.handleMessage
  by_cases h1 : jsStartsWith msg "rate_" = true
  · rw [if_pos h1]
    by_cases h2 : st.awaitingRating = true
    · rw [if_pos h2]; rfl
    · rw [if_neg h2]; rfl
  · rw [if_neg h1]
    by_cases h3 : jsStartsWith msg "menu_" = true
    · rw [if_pos h3]; rfl
    · rw [if_neg h3]
      by_cases h4 : jsStartsWith msg "help_" = true
      · rw [if_pos h4]; rfl
      · rw [if_neg h4]
        rw [if_neg hreset]
        by_cases h5 : jsIncludes (jsToLower msg) "help" = true
        · rw [if_pos h5]; rfl
        · rw [if_neg h5]
          by_cases h6 : (jsIncludes (jsToLower msg) "status" && jsNatTruthy st.lastOrderId) = true
          · rw [if_pos h6]
            cases hf : orders.find? (fun o => some o.id = st.lastOrderId) with
            | some o => rfl
            | none => rfl
          · rw [if_neg h6]
            have hnc : ¬ (st.awaitingConfirmation = true) := by
              rw [hconf]; exact Bool.false_ne_true
            rw [if_neg hnc]
            dsimp only
            rw [hparse]
            rw [if_neg (show ¬((!(([] : List OrderItem).isEmpty)) = true) by decide)]
            by_cases hR : (Combined.parseUserMessage msg st cfg).roomNumber.isSome = true
            · simp only [if_pos hR]
              by_cases hI1 : (Combined.parseUserMessage msg st cfg).intent = "order"
              · simp only [if_pos hI1, Option.map_some']
                rw [handleOrderIntent_preserves_items]
              · simp only [if_neg hI1]
                by_cases hI2 : (Combined.parseUserMessage msg st cfg).intent = "menu"
                · simp only [if_pos hI2]; rfl
                · simp only [if_neg hI2]
                  by_cases hI3 : (Combined.parseUserMessage msg st cfg).intent = "greeting"
                  · simp only [if_pos hI3]; rfl
                  · simp only [if_neg hI3]
                    by_cases hI4 :
                        (Combined.parseUserMessage msg st cfg).intent = "provide_room_only"
                    · simp only [if_pos hI4]; rfl
                    · simp only [if_neg hI4]; rfl
            · simp only [if_neg hR]
              by_cases hI1 : (Combined.parseUserMessage msg st cfg).intent = "order"
              · simp only [if_pos hI1, Option.map_some']
                rw [handleOrderIntent_preserves_items]
              · simp only [if_neg hI1]
                by_cases hI2 : (Combined.parseUserMessage msg st cfg).intent = "menu"
                · simp only [if_pos hI2]; rfl
                · simp only [if_neg hI2]
                  by_cases hI3 : (Combined.parseUserMessage msg st cfg).intent = "greeting"
                  · simp only [if_pos hI3]; rfl
                  · simp only [if_neg hI3]
                    by_cases hI4 :
                        (Combined.parseUserMessage msg st cfg).intent = "provide_room_only"
                    · simp only [if_pos hI4]; rfl
                    · simp only [if_neg hI4]; rfl

/-- Witness for C10: the room-number-only message `105` sent while a
two-line cart is pending. -/
theorem c10_empty_parse_preserves_cart_witness :
    ({ initState with items := scenarioCart } : UserState).awaitingConfirmation = false ∧
    jsToLower "105" ≠ "reset" ∧
    (Combined.parseUserMessage "105" { initState with items := scenarioCart }
        defaultMenuConfig).orderItems = [] ∧
    (Combined.handleMessage "guest1" "105" { initState with items := scenarioCart } []
        defaultMenuConfig 0).newState.map (fun s => s.items) = some scenarioCart :=
  ⟨rfl, by decide, by decide,
   c10_empty_parse_preserves_cart "guest1" "105" { initState with items := scenarioCart }
     [] defaultMenuConfig 0 rfl (by decide) (by decide)⟩

end WhBot
